import Mathlib

/-!
Verification development for the teltubby media-archiver.

Shallow embedding of the subsystems the claims touch:
* `Teltubby.Slugging`   — src/teltubby/utils/slugging.py
* `Teltubby.Dedup`      — src/teltubby/db/dedup.py
* `Teltubby.Quota`      — src/teltubby/quota/quota.py
* `Teltubby.JobManager` — src/teltubby/queue/job_manager.py
* `Teltubby.Service`    — routing logic of src/teltubby/bot/service.py
* `Teltubby.Album`      — src/teltubby/ingest/album_aggregator.py
* `Teltubby.Pipeline`   — src/teltubby/ingest/pipeline.py

Machine integers are modelled as `Nat`/`Int` (no overflow is relevant to the
claims), fallible operations return `Option`/`Except`, and external I/O
(Telegram downloads, S3 uploads, bucket enumeration) is modelled by explicit
oracle values threaded through the state.
-/

namespace Teltubby

namespace Slugging

/-- Python constant `SAFE_MAX_FILENAME = 120` from slugging.py. -/
def SAFE_MAX_FILENAME : Nat := 120

/-- Characters kept by the slug regex `[^a-zA-Z0-9._-]+` in
`to_safe_slug` (slugging.py line 24), by code point: ASCII letters
(65-90, 97-122), digits (48-57), dot (46), underscore (95) and dash (45)
survive; every other run is replaced by a dash. -/
def isSafeChar (c : Char) : Bool :=
  let n := c.toNat
  (97 ≤ n && n ≤ 122) || (65 ≤ n && n ≤ 90) || (48 ≤ n && n ≤ 57)
    || n == 46 || n == 95 || n == 45

/-- Characters allowed in the final slug output, per the spec charset
`[a-z0-9._-]` (lowercase only, since slugify lowercases first), by code
point. -/
def isSlugOutChar (c : Char) : Bool :=
  let n := c.toNat
  (97 ≤ n && n ≤ 122) || (48 ≤ n && n ≤ 57) || n == 46 || n == 95 || n == 45

/-- Modelled from the spec: the `unidecode` transliteration library is not part
of this repository.  Per spec §4.5 slugs "transliterate to ASCII"
(Cyrillic to Latin); we model transliteration character-wise: ASCII characters
map to themselves, non-ASCII characters map to an ASCII replacement string
(a small sample table for Cyrillic, empty for unknown characters, matching
unidecode's default of dropping unmapped characters). -/
def translitChar (c : Char) : List Char :=
  if c.toNat < 128 then [c]
  else if c = 'а' then ['a']
  else if c = 'б' then ['b']
  else if c = 'в' then ['v']
  else if c = 'г' then ['g']
  else if c = 'д' then ['d']
  else if c = 'П' then ['P']
  else if c = 'ж' then ['z', 'h']
  else []

/-- Modelled from the spec: `unidecode(text)` transliterates a whole string to
ASCII by concatenating per-character transliterations. -/
def unidecode (s : List Char) : List Char :=
  s.flatMap translitChar

/-- Lowercasing step of `slugify(..., lowercase=True, ...)`; on the ASCII
output of transliteration this is ASCII lowercasing. -/
def lowerStr (s : List Char) : List Char :=
  s.map Char.toLower

/-- Modelled from the spec: core of `slugify` with
`regex_pattern=r"[^a-zA-Z0-9._-]+"` — each maximal run of characters outside
the safe set is replaced by a single dash.  The boolean argument records
whether we are inside an unsafe run (so only its first character emits the
dash). -/
def replaceRunsAux : Bool → List Char → List Char
  | _, [] => []
  | inRun, c :: rest =>
    if isSafeChar c then c :: replaceRunsAux false rest
    else if inRun then replaceRunsAux true rest
    else '-' :: replaceRunsAux true rest

/-- Replace every maximal run of non-safe characters by one dash. -/
def replaceRuns (s : List Char) : List Char :=
  replaceRunsAux false s

/-- Embedding of `to_safe_slug` (slugging.py lines 22-24):
`slugify(unidecode(text), lowercase=True, regex_pattern=r"[^a-zA-Z0-9._-]+")`,
with the two library calls modelled from the spec as documented above. -/
def to_safe_slug (s : String) : String :=
  String.mk (replaceRuns (lowerStr (unidecode s.data)))

/-- Characters matched by the token regex of `caption_snippet`
(slugging.py line 30, word characters plus apostrophe 39 and dash 45),
restricted to the ASCII range produced by transliteration. -/
def isWordChar (c : Char) : Bool :=
  let n := c.toNat
  (97 ≤ n && n ≤ 122) || (65 ≤ n && n ≤ 90) || (48 ≤ n && n ≤ 57)
    || n == 95 || n == 39 || n == 45

/-- Greedy tokenizer for `re.findall(r"[\w'-]+", ...)`: maximal runs of
word characters, accumulator holds the current token reversed. -/
def tokensAux : List Char → List Char → List (List Char)
  | [], acc => if acc.isEmpty then [] else [acc.reverse]
  | c :: rest, acc =>
    if isWordChar c then tokensAux rest (c :: acc)
    else if acc.isEmpty then tokensAux rest []
    else acc.reverse :: tokensAux rest []

/-- All maximal word-character runs of a string. -/
def findWords (s : List Char) : List (List Char) :=
  tokensAux s []

/-- Embedding of `caption_snippet` (slugging.py lines 27-34): first six word
tokens of the transliterated caption, joined by dashes, then slugified.
`None` and the empty caption give the empty snippet. -/
def caption_snippet (caption : Option String) : String :=
  match caption with
  | none => ""
  | some cap =>
    if cap = "" then ""
    else
      let words := findWords (unidecode cap.data)
      if words.isEmpty then ""
      else to_safe_slug (String.mk (List.intercalate ['-'] (words.take 6)))

/-- Timestamp broken into UTC calendar fields, the shape consumed by
`strftime("%Y%m%d-%H%M%S")`. -/
structure Timestamp where
  year : Nat
  month : Nat
  day : Nat
  hour : Nat
  minute : Nat
  second : Nat
deriving DecidableEq, Repr

/-- Zero-pad a natural to two digits, as `%m`, `%d`, `%H`, `%M`, `%S` do. -/
def pad2 (n : Nat) : String :=
  if n < 10 then "0" ++ toString n else toString n

/-- Zero-pad a natural to three digits, as the format `{ordinal:03d}` does. -/
def pad3 (n : Nat) : String :=
  if n < 10 then "00" ++ toString n
  else if n < 100 then "0" ++ toString n
  else toString n

/-- Zero-pad a year to four digits, as `%Y` does for years below 10000. -/
def pad4 (n : Nat) : String :=
  if n < 10 then "000" ++ toString n
  else if n < 100 then "00" ++ toString n
  else if n < 1000 then "0" ++ toString n
  else toString n

/-- Rendering of `message_ts_utc.strftime("%Y%m%d-%H%M%S")`
(slugging.py line 47). -/
def strftimeTs (t : Timestamp) : String :=
  pad4 t.year ++ pad2 t.month ++ pad2 t.day ++ "-"
    ++ pad2 t.hour ++ pad2 t.minute ++ pad2 t.second

/-- Embedding of the `base` local of `build_filename` (slugging.py lines
47-54): timestamp, chat slug, sender slug (`"unknown"` when the sender string
is empty, per Python truthiness), message id, optional group id, zero-padded
ordinal, optional caption snippet. -/
def build_base (message_ts_utc : Timestamp) (chat_or_source : String)
    (sender : String) (message_id : Nat) (media_group_id : Option String)
    (ordinal : Nat) (caption : Option String) : String :=
  let ts := strftimeTs message_ts_utc
  let chat_part := to_safe_slug chat_or_source
  let sender_part := if sender ≠ "" then to_safe_slug sender else "unknown"
  let group_part := match media_group_id with
    | some g => if g ≠ "" then "-g" ++ g else ""
    | none => ""
  let cap_part := caption_snippet caption
  let base := ts ++ "_" ++ chat_part ++ "_" ++ sender_part ++ "_m"
    ++ toString message_id ++ group_part ++ "_" ++ pad3 ordinal
  if cap_part ≠ "" then base ++ "_" ++ cap_part else base

/-- Embedding of `build_filename` (slugging.py lines 37-60).  The overflow
branch models the Python slice `base[:-overflow]`, which clamps to the empty
string when `overflow ≥ len(base)`; `Nat` truncated subtraction inside
`List.take` gives exactly that clamping. -/
def build_filename (message_ts_utc : Timestamp) (chat_or_source : String)
    (sender : String) (message_id : Nat) (media_group_id : Option String)
    (ordinal : Nat) (caption : Option String) (ext : String) : String :=
  let base := build_base message_ts_utc chat_or_source sender message_id
    media_group_id ordinal caption
  let name := base ++ "." ++ ext
  if SAFE_MAX_FILENAME < name.length then
    let overflow := name.length - SAFE_MAX_FILENAME
    String.mk (base.data.take (base.length - overflow)) ++ "." ++ ext
  else name

end Slugging

namespace Dedup

/-- Result type of the duplicate probes, mirroring the `DuplicateResult`
dataclass of dedup.py (lines 80-84). -/
structure DuplicateResult where
  is_duplicate : Bool
  existing_key : Option String
  reason : Option String
deriving DecidableEq, Repr

/-- Row of the `files` table: sha256 is the association key, the row holds the
remaining columns (`s3_key`, `size_bytes`, `mime`, `created_at`). -/
structure FileRow where
  s3_key : String
  size_bytes : Nat
  mime : Option String
  created_at : String
deriving DecidableEq, Repr

/-- Row of the `jobs` table minus its key column `job_id`. -/
structure JobRow where
  user_id : Int
  chat_id : Int
  message_id : Int
  state : String
  priority : Int
  created_at : String
  updated_at : String
  last_error : Option String
  payload_json : Option String
deriving DecidableEq, Repr

/-- Row of the `messages` table (reserved, never written by the pipeline). -/
structure MsgRow where
  message_id : String
  chat_id : String
  media_group_id : Option String
  created_at : String
deriving DecidableEq, Repr

/-- Row of the `job_attempts` table minus its autoincrement id. -/
structure AttemptRow where
  job_id : String
  attempt : Nat
  started_at : Option String
  finished_at : Option String
  success : Option Nat
  error : Option String
deriving DecidableEq, Repr

/-- Row of the `auth_secrets` table minus its key column. -/
structure SecretRow where
  value : String
  created_at : String
deriving DecidableEq, Repr

/-- The SQLite database of dedup.py, one association list per table of the
SCHEMA (lines 18-77); primary-key uniqueness is maintained by inserting only
absent keys (`INSERT OR IGNORE`) or replacing in place. -/
structure DbState where
  files : List (String × FileRow)
  tg_map : List (String × String)
  messages : List MsgRow
  jobs : List (String × JobRow)
  job_attempts : List AttemptRow
  auth_secrets : List (String × SecretRow)
deriving DecidableEq, Repr

/-- The empty database, the state right after `executescript(SCHEMA)`. -/
def emptyDb : DbState := ⟨[], [], [], [], [], []⟩

/-- Behaviour of `INSERT OR IGNORE`: keep the table unchanged when the primary
key is already present, append the new row otherwise. -/
def insertIgnore {β : Type} (t : List (String × β)) (k : String) (v : β) :
    List (String × β) :=
  if (t.lookup k).isSome then t else t ++ [(k, v)]

/-- Remove the row with the given primary key. -/
def removeKey {β : Type} (t : List (String × β)) (k : String) :
    List (String × β) :=
  t.filter (fun p => p.1 ≠ k)

/-- Replace the value stored under an existing primary key. -/
def setKey {β : Type} (t : List (String × β)) (k : String) (v : β) :
    List (String × β) :=
  t.map (fun p => if p.1 = k then (k, v) else p)

/-- Embedding of `DedupIndex.check_by_unique_id` (dedup.py lines 99-107): the
SQL join `tg_map JOIN files ON files.sha256 = tg_map.sha256` filtered on the
unique id yields a hit only when both the source mapping and the file record
exist. -/
def check_by_unique_id (db : DbState) (file_unique_id : String) :
    DuplicateResult :=
  match db.tg_map.lookup file_unique_id with
  | none => ⟨false, none, none⟩
  | some sha =>
    match db.files.lookup sha with
    | none => ⟨false, none, none⟩
    | some row => ⟨true, some row.s3_key, some "file_unique_id"⟩

/-- Embedding of `DedupIndex.check_by_sha256` (dedup.py lines 109-114). -/
def check_by_sha256 (db : DbState) (sha256 : String) : DuplicateResult :=
  match db.files.lookup sha256 with
  | none => ⟨false, none, none⟩
  | some row => ⟨true, some row.s3_key, some "sha256"⟩

/-- Embedding of `DedupIndex.record` (dedup.py lines 116-134): `INSERT OR
IGNORE` the file record, and, when the unique id is truthy (present and
non-empty), `INSERT OR IGNORE` the source mapping.  The wall-clock string the
Python code reads from `time.strftime` is passed in as `now_iso`. -/
def record (db : DbState) (sha256 : String) (s3_key : String)
    (size_bytes : Nat) (mime : Option String) (file_unique_id : Option String)
    (now_iso : String) : DbState :=
  let files := insertIgnore db.files sha256 ⟨s3_key, size_bytes, mime, now_iso⟩
  let tg_map := match file_unique_id with
    | some uid => if uid ≠ "" then insertIgnore db.tg_map uid sha256 else db.tg_map
    | none => db.tg_map
  { db with files := files, tg_map := tg_map }

/-- Embedding of `DedupIndex.upsert_job` (dedup.py lines 142-176): insert the
row, or on conflict overwrite state, priority and updated-at while preserving
created-at, last-error, and the payload when the new payload is NULL
(`COALESCE(excluded.payload_json, jobs.payload_json)`). -/
def upsert_job (db : DbState) (job_id : String) (user_id chat_id message_id : Int)
    (state : String) (priority : Int) (now_iso : String)
    (payload_json : Option String) : DbState :=
  match db.jobs.lookup job_id with
  | none =>
    { db with jobs := db.jobs ++
        [(job_id, ⟨user_id, chat_id, message_id, state, priority, now_iso,
          now_iso, none, payload_json⟩)] }
  | some old =>
    let newPayload := match payload_json with
      | some p => some p
      | none => old.payload_json
    let updated := { old with
      state := state
      priority := priority
      updated_at := now_iso
      payload_json := newPayload }
    { db with jobs := setKey db.jobs job_id updated }

/-- Embedding of `DedupIndex.purge_all` (dedup.py lines 244-279): count then
delete every row of the tables `files`, `jobs`, `auth_secrets`, in that order,
and return the counts keyed by table name.  The trailing
`DELETE FROM sqlite_sequence` only resets autoincrement counters and touches
no modelled row. -/
def purge_all (db : DbState) : DbState × List (String × Nat) :=
  let counts := [("files", db.files.length), ("jobs", db.jobs.length),
    ("auth_secrets", db.auth_secrets.length)]
  ({ db with files := [], jobs := [], auth_secrets := [] }, counts)

end Dedup

namespace Quota

/-- Mutable fields of `QuotaManager` (quota.py lines 24-30): the configured
quota (`0` models the unset / falsy case of `int(...) or None`), the cached
byte total, and the time of the last refresh.  Time is in seconds as `Int` so
differences behave as Python float differences do. -/
structure QuotaState where
  quota : Nat
  last_used_bytes : Nat
  last_refresh : Int
deriving DecidableEq, Repr

/-- Oracle for one `list_objects` enumeration: the object sizes the iterator
yielded before it either completed (`ok = true`) or raised (`ok = false`).
The Python loop has already added the yielded sizes to `total` when the
exception arrives, so the partial sum is observable either way. -/
structure ListOutcome where
  sizes : List Nat
  ok : Bool
deriving DecidableEq, Repr

/-- Embedding of `QuotaManager.refresh_used_bytes` (quota.py lines 32-45):
serve the cache when it is fresh and non-zero; otherwise sum the sizes the
enumeration yielded (the `except` clause only logs, so a failed enumeration
leaves `total` at the partial sum, typically `0`), store that value and
return it. -/
def refresh_used_bytes (s : QuotaState) (now : Int) (enumr : ListOutcome)
    (cache_ttl_seconds : Int) : Nat × QuotaState :=
  if now - s.last_refresh < cache_ttl_seconds ∧ 0 < s.last_used_bytes then
    (s.last_used_bytes, s)
  else
    let total := enumr.sizes.sum
    (total, { s with last_used_bytes := total, last_refresh := now })

/-- Embedding of `QuotaManager.used_ratio` (quota.py lines 47-53): `none`
exactly when no quota is configured, otherwise `min 1 (used / quota)` after a
refresh with the default 300-second cache TTL. -/
def used_ratio (s : QuotaState) (now : Int) (enumr : ListOutcome) :
    Option ℚ × QuotaState :=
  if s.quota = 0 then (none, s)
  else
    let (used, s') := refresh_used_bytes s now enumr 300
    (some (min 1 ((used : ℚ) / (s.quota : ℚ))), s')

end Quota

namespace JobManager

/-- JSON-ish values of the dynamically typed job payload dictionaries. -/
inductive Jval where
  | null
  | str (s : String)
  | num (n : Int)
  | dict (fields : List (String × Jval))
  | arr (elems : List Jval)

/-- A JSON object, as an association list of fields. -/
abbrev Jdict := List (String × Jval)

/-- First key of the list that is missing from the dictionary; the Python
validation loops raise at the first absent key. -/
def firstMissing (d : Jdict) (keys : List String) : Option String :=
  keys.find? (fun k => (d.lookup k).isNone)

/-- Model of `payload.get(k) or {}`: the sub-dictionary when the field holds
one, the empty dictionary otherwise. -/
def getDict (d : Jdict) (k : String) : Jdict :=
  match d.lookup k with
  | some (Jval.dict sub) => sub
  | _ => []

/-- Embedding of `JobManager._validate_job_payload` (job_manager.py lines
132-163): require the seven top-level keys, then `file_info.{file_id,
file_unique_id, file_type}`, then `job_metadata.{created_at, priority,
retry_count, max_retries}`. -/
def validate_job_payload (p : Jdict) : Except String Unit :=
  match firstMissing p ["job_id", "user_id", "chat_id", "message_id",
      "file_info", "telegram_context", "job_metadata"] with
  | some k => .error ("missing field: " ++ k)
  | none =>
    match firstMissing (getDict p "file_info")
        ["file_id", "file_unique_id", "file_type"] with
    | some k => .error ("missing file_info." ++ k)
    | none =>
      match firstMissing (getDict p "job_metadata")
          ["created_at", "priority", "retry_count", "max_retries"] with
      | some k => .error ("missing job_metadata." ++ k)
      | none => .ok ()

/-- The aio-pika message constructed by `publish_job` (job_manager.py lines
180-187); `delivery_mode = 2` is `DeliveryMode.PERSISTENT`, the body is the
payload to be serialized as compact JSON. -/
structure AmqpMessage where
  body : Jdict
  delivery_mode : Nat
  priority : Int
  content_type : String
  type : String
  headers : List (String × String)

/-- Embedding of `JobManager.publish_job` (job_manager.py lines 165-194),
channel assumed initialized: validate, then build the message with persistent
delivery, clamped priority, JSON content type, the type tag and the schema
header, and hand it to the exchange. -/
def publish_job (p : Jdict) (priority : Int) : Except String AmqpMessage := do
  let () ← validate_job_payload p
  .ok { body := p
        delivery_mode := 2
        priority := max 0 (min priority 9)
        content_type := "application/json"
        type := "teltubby.large_file.job"
        headers := [("schema", "1.0")] }

/-- The `publish_job(payload)` call shape used by the bot service, taking the
default argument `priority = 4` of the Python signature. -/
def publish_job_default (p : Jdict) : Except String AmqpMessage :=
  publish_job p 4

end JobManager

namespace Service

/-- Destination chosen by the routing loop of `_on_message`. -/
inductive Route where
  | small
  | large
deriving DecidableEq, Repr

/-- Outcome of routing one item: the database after any PENDING row was
persisted, and the path taken. -/
structure RouteResult where
  db : Dedup.DbState
  route : Route
deriving Repr

/-- Embedding of the per-item routing decision of
`TeltubbyBotService._on_message` (service.py lines 1149-1202):
`if is_too_big or (size_hint and size_hint > bot_limit)` publish a job and
persist a PENDING row with priority 4 via `upsert_job`, else keep the item for
the small-path pipeline.  `is_too_big` is the probe result of
`_check_file_size` and `size_hint` the declared size with `0` for the falsy
missing case. -/
def route_item (db : Dedup.DbState) (is_too_big : Bool) (size_hint : Nat)
    (bot_limit : Nat) (job_id : String) (user_id chat_id message_id : Int)
    (created_at : String) (payload_json : String) : RouteResult :=
  if is_too_big || (size_hint != 0 && decide (bot_limit < size_hint)) then
    { db := Dedup.upsert_job db job_id user_id chat_id message_id "PENDING" 4
        created_at (some payload_json)
      route := .large }
  else
    { db := db, route := .small }

end Service

namespace Album

/-- The fields of a Telegram message that the aggregator reads. -/
structure AMsg where
  message_id : Nat
  media_group_id : Option String
deriving DecidableEq, Repr

/-- Embedding of the `AlbumBucket` dataclass (album_aggregator.py lines
18-22).  Monotonic time is a natural number; it never decreases across calls,
matching `time.monotonic`. -/
structure AlbumBucket where
  started_at_monotonic : Nat
  items : List AMsg
  done : Bool
deriving DecidableEq, Repr

/-- Aggregator state: the window and the bucket map.  The per-group asyncio
locks serialize add/flush per group id; in this sequential embedding each call
runs atomically, which is exactly what the locks enforce. -/
structure AggState where
  window : Nat
  buckets : List (String × AlbumBucket)
deriving DecidableEq, Repr

/-- Embedding of `AlbumAggregator.add_and_maybe_wait` (album_aggregator.py
lines 31-91).  No group id: immediate singleton.  An existing, not-done bucket
whose elapsed time reached the window is finalized and its items returned
without the arriving message, and the bucket and its lock are deleted.
Otherwise the message is appended (creating the bucket first when absent) and
the window is re-checked with the same clock reading. -/
def add_and_maybe_wait (s : AggState) (now : Nat) (m : AMsg) :
    Option (List AMsg) × AggState :=
  match m.media_group_id with
  | none => (some [m], s)
  | some mgid =>
    match s.buckets.lookup mgid with
    | some b =>
      if !b.done ∧ s.window ≤ now - b.started_at_monotonic then
        (some b.items, { s with buckets := Dedup.removeKey s.buckets mgid })
      else if b.done then
        (some [m], s)
      else
        let b2 := { b with items := b.items ++ [m] }
        if s.window ≤ now - b2.started_at_monotonic then
          (some b2.items, { s with buckets := Dedup.removeKey s.buckets mgid })
        else
          (none, { s with buckets := Dedup.setKey s.buckets mgid b2 })
    | none =>
      let b2 : AlbumBucket := ⟨now, [m], false⟩
      if s.window ≤ now - b2.started_at_monotonic then
        (some b2.items, s)
      else
        (none, { s with buckets := s.buckets ++ [(mgid, b2)] })

/-- Whether a bucket is ripe for the periodic finalizer. -/
def isReady (window : Nat) (now : Nat) (b : AlbumBucket) : Bool :=
  b.done || decide (window ≤ now - b.started_at_monotonic)

/-- Embedding of `AlbumAggregator.pop_ready_albums` (album_aggregator.py
lines 93-135) in the uncontended sequential case: every candidate bucket that
is done or expired is removed and its items returned. -/
def pop_ready_albums (s : AggState) (now : Nat) :
    List (List AMsg) × AggState :=
  let candidates := s.buckets.filter (fun p => isReady s.window now p.2)
  (candidates.map (fun p => p.2.items),
    { s with buckets := s.buckets.filter (fun p => !isReady s.window now p.2) })

end Album

namespace Pipeline

open Slugging Dedup

deriving instance DecidableEq for Except

/-- Conversion of a day count since 1970-01-01 to a civil date, the arithmetic
behind `datetime.utcfromtimestamp` for non-negative epochs (standard
era-based civil-from-days computation, here over `Nat`). -/
def civilFromDays (days : Nat) : Nat × Nat × Nat :=
  let z := days + 719468
  let era := z / 146097
  let doe := z % 146097
  let yoe := (doe - doe / 1460 + doe / 36524 - doe / 146096) / 365
  let y := yoe + era * 400
  let doy := doe - (365 * yoe + yoe / 4 - yoe / 100)
  let mp := (5 * doy + 2) / 153
  let d := doy - (153 * mp + 2) / 5 + 1
  let m := if mp < 10 then mp + 3 else mp - 9
  (if m ≤ 2 then y + 1 else y, m, d)

/-- Model of `datetime.utcfromtimestamp` on non-negative epoch seconds,
giving the calendar fields that `strftime` reads. -/
def utcFromTimestamp (epoch : Nat) : Timestamp :=
  let (y, m, d) := civilFromDays (epoch / 86400)
  let rem := epoch % 86400
  ⟨y, m, d, rem / 3600, (rem % 3600) / 60, rem % 60⟩

/-- Configuration fields the pipeline reads (`AppConfig` in
runtime/config.py): bucket name, maximum size in GiB, and the optional
override of the bot-API small-path limit. -/
structure Config where
  s3_bucket : String
  max_file_gb : Nat
  bot_api_max_file_size_bytes : Option Nat
deriving DecidableEq, Repr

/-- The media attached to one message, after the per-kind dispatch of
`_detect_ext_and_mime` and the id/size extraction in `process_batch` (lines
148-201): media type label, extension, mime, primary file ids, declared size,
optional dimensions, duration and original name.  The per-kind pattern match
of the source is collapsed into these extracted fields. -/
structure MediaInfo where
  mtype : String
  ext : String
  mime : Option String
  file_id : String
  file_unique_id : String
  size_hint : Option Nat
  width : Option Nat
  height : Option Nat
  duration : Option Nat
  original_name : Option String
deriving DecidableEq, Repr

/-- One Telegram message as the pipeline consumes it.  `media = none` is the
no-binary-media branch.  `chat_source` is the slug source string computed
from `forward_origin`/chat for the first message (pipeline lines 133-138).
`download` and `upload_ok` are oracles for the external Telegram download
(`bot.get_file` + `download_as_bytearray`, returning size and sha256 hex) and
the S3 upload: `Except.error` and `false` model those calls raising. -/
structure PMessage where
  id : Nat
  date : Nat
  media : Option MediaInfo
  caption : Option String
  media_group_id : Option String
  sender : Option String
  chat_source : String
  download : Except Unit (Nat × String)
  upload_ok : Bool
deriving DecidableEq, Repr

/-- Stable insertion of a message into a date-sorted list: the inserted
message precedes later messages with an equal date, so the sort is stable as
Python `sorted(..., key=lambda m: m.date.timestamp())` is. -/
def insortByDate (m : PMessage) : List PMessage → List PMessage
  | [] => [m]
  | h :: t => if m.date ≤ h.date then m :: h :: t else h :: insortByDate m t

/-- Stable sort by date, modelling `sorted(messages, key=...)`. -/
def sortByDate : List PMessage → List PMessage
  | [] => []
  | m :: rest => insortByDate m (sortByDate rest)

/-- The `ItemOutcome` dataclass of pipeline.py (lines 38-53). -/
structure ItemOutcome where
  ordinal : Nat
  type : String
  mime_type : Option String
  size_bytes : Option Nat
  width : Option Nat
  height : Option Nat
  duration : Option Nat
  file_id : String
  file_unique_id : String
  original_filename : Option String
  sha256 : Option String
  s3_key : Option String
  is_duplicate : Bool
  skipped_reason : Option String
deriving DecidableEq, Repr

/-- The `BatchResult` dataclass of pipeline.py (lines 56-63), with its
defaults (`total_bytes_uploaded = 0` until assigned). -/
structure BatchResult where
  base_path : String
  outcomes : List ItemOutcome
  duplicate_of : Option String
  dedup_reason : Option String
  total_bytes_uploaded : Nat
  notes : Option String
deriving DecidableEq, Repr

/-- The manifest JSON written at `<base>/message.json`, restricted to the
fields the claims mention; each element of `items` is serialized field for
field from the corresponding outcome, and the remaining `telegram` metadata
fields are carried verbatim from the first message. -/
structure Artifact where
  schema_version : String
  archive_timestamp_utc : String
  message_timestamp_utc : String
  bucket : String
  base_path : String
  files_count : Nat
  total_bytes_uploaded : Nat
  keys : List String
  duplicate_of : Option String
  dedup_reason : Option String
  notes : Option String
  items : List ItemOutcome
deriving DecidableEq, Repr

/-- One S3 upload performed through `S3Client.upload_fileobj`. -/
structure S3Upload where
  key : String
  size : Nat
  content_type : Option String
deriving DecidableEq, Repr

/-- Truthiness of an optional string, as Python `if o.s3_key` / `if k`. -/
def truthyStr (k : Option String) : Bool :=
  match k with
  | some s => s ≠ ""
  | none => false

/-- Embedding of `_build_json_artifact` (pipeline.py lines 378-428), applied
to the batch result as it stands when the function is called.  Note the
double truthiness filter of the source (`if o.s3_key` then `if k`). -/
def build_json_artifact (cfg : Config) (archive_now_iso : String)
    (ts : Timestamp) (res : BatchResult) : Artifact :=
  let keys := (res.outcomes.filter (fun o => truthyStr o.s3_key)).map
    (fun o => o.s3_key.getD "")
  let keysF := keys.filter (fun k => k ≠ "")
  { schema_version := "1.0"
    archive_timestamp_utc := archive_now_iso
    message_timestamp_utc := strftimeTs ts
    bucket := cfg.s3_bucket
    base_path := res.base_path
    files_count := keysF.length
    total_bytes_uploaded := res.total_bytes_uploaded
    keys := keysF
    duplicate_of := res.duplicate_of
    dedup_reason := res.dedup_reason
    notes := res.notes
    items := res.outcomes }

/-- Mutable state threaded through the per-item loop of `process_batch`:
the database (each `record` commits), the uploads performed so far, and the
accumulating `BatchResult` fields. -/
structure LoopState where
  db : DbState
  uploads : List S3Upload
  outcomes : List ItemOutcome
  duplicate_of : Option String
  dedup_reason : Option String
deriving DecidableEq, Repr

/-- An exception escaping `process_batch`: the stage that raised, plus the
database and uploads already committed when it did (those side effects
persist past the raise). -/
structure PipelineErr where
  stage : String
  db : DbState
  uploads : List S3Upload
deriving DecidableEq, Repr

/-- Successful return of `process_batch`: the batch result, the manifest
artifact that was uploaded, the final database, and all uploads (the last one
being the manifest object). -/
structure PipelineOk where
  result : BatchResult
  artifact : Artifact
  db : DbState
  uploads : List S3Upload
deriving DecidableEq, Repr

/-- Batch-level context computed before the loop. -/
structure Ctx where
  cfg : Config
  ts : Timestamp
  chat_slug : String
  base_path : String
  msg0_id : Nat
  msg0_gid : Option String
  now_iso : String
deriving DecidableEq, Repr

/-- Embedding of one iteration of the item loop of `process_batch`
(pipeline.py lines 147-363), in source order: media presence, fast-path dedup
by unique id, declared-size gate, download (which may raise), post-download
size gate, content-hash dedup, key build and upload (which may raise), record,
success outcome. -/
def processItem (ctx : Ctx) (st : LoopState) (idx : Nat) (m : PMessage) :
    Except PipelineErr LoopState :=
  let bot_limit := match ctx.cfg.bot_api_max_file_size_bytes with
    | some n => if n = 0 then 50 * 1024 * 1024 else n
    | none => 50 * 1024 * 1024
  let max_bytes_cfg := ctx.cfg.max_file_gb * 1024 * 1024 * 1024
  match m.media with
  | none =>
    -- no identifiable binary media: skipped=no_media
    .ok { st with outcomes := st.outcomes ++
      [⟨idx, "unknown", none, none, none, none, none, "", "", none, none,
        none, false, some "no_media"⟩] }
  | some mi =>
    let dres := check_by_unique_id st.db mi.file_unique_id
    if dres.is_duplicate then
      .ok { st with
        duplicate_of := dres.existing_key
        dedup_reason := dres.reason
        outcomes := st.outcomes ++
          [⟨idx, mi.mtype, mi.mime, mi.size_hint, mi.width, mi.height,
            mi.duration, mi.file_id, mi.file_unique_id, mi.original_name,
            none, dres.existing_key, true, none⟩] }
    else
      -- pre-download size gate on the declared size, when truthy
      let gated : Bool := match mi.size_hint with
        | some sz => sz != 0 && (decide (bot_limit < sz) || decide (max_bytes_cfg < sz))
        | none => false
      if gated then
        let sz := mi.size_hint.getD 0
        let reason := if bot_limit < sz then "exceeds_bot_limit"
          else "exceeds_cfg_limit"
        .ok { st with outcomes := st.outcomes ++
          [⟨idx, mi.mtype, mi.mime, mi.size_hint, mi.width, mi.height,
            mi.duration, mi.file_id, mi.file_unique_id, mi.original_name,
            none, none, false, some reason⟩] }
      else
        match m.download with
        | .error () =>
          -- bot.get_file / download raised: the exception propagates
          .error ⟨"download raised", st.db, st.uploads⟩
        | .ok (content_size, sha) =>
          if bot_limit < content_size ∨ max_bytes_cfg < content_size then
            let reason := if bot_limit < content_size then "exceeds_bot_limit"
              else "exceeds_cfg_limit"
            .ok { st with outcomes := st.outcomes ++
              [⟨idx, mi.mtype, mi.mime, some content_size, mi.width,
                mi.height, mi.duration, mi.file_id, mi.file_unique_id,
                mi.original_name, some sha, none, false, some reason⟩] }
          else
            let dsha := check_by_sha256 st.db sha
            if dsha.is_duplicate then
              .ok { st with
                duplicate_of := dsha.existing_key
                dedup_reason := dsha.reason
                outcomes := st.outcomes ++
                  [⟨idx, mi.mtype, mi.mime, some content_size, mi.width,
                    mi.height, mi.duration, mi.file_id, mi.file_unique_id,
                    mi.original_name, some sha, dsha.existing_key, true,
                    none⟩] }
            else
              let sender := m.sender.getD "unknown"
              let fname := build_filename ctx.ts ctx.chat_slug sender
                ctx.msg0_id ctx.msg0_gid idx m.caption mi.ext
              let key := ctx.base_path ++ fname
              if m.upload_ok then
                let uploads := st.uploads ++ [⟨key, content_size, mi.mime⟩]
                let db := record st.db sha key content_size mi.mime
                  (some mi.file_unique_id) ctx.now_iso
                .ok { st with
                  db := db
                  uploads := uploads
                  outcomes := st.outcomes ++
                    [⟨idx, mi.mtype, mi.mime, some content_size, mi.width,
                      mi.height, mi.duration, mi.file_id, mi.file_unique_id,
                      mi.original_name, some sha, some key, false, none⟩] }
              else
                -- s3.upload_fileobj raised: the exception propagates
                .error ⟨"upload raised", st.db, st.uploads⟩

/-- The item loop, ordinals starting at 1 over the date-sorted messages. -/
def processItems (ctx : Ctx) : LoopState → Nat → List PMessage →
    Except PipelineErr LoopState
  | st, _, [] => .ok st
  | st, idx, m :: rest =>
    match processItem ctx st idx m with
    | .error e => .error e
    | .ok st2 => processItems ctx st2 (idx + 1) rest

/-- Embedding of `process_batch` (pipeline.py lines 118-375).  The clock
strings read inside the call (`time.strftime` in `record`,
`datetime.utcnow` in the artifact) are the `now_iso` argument.  On success the
manifest artifact is serialized from the result *before*
`result.total_bytes_uploaded` is assigned (source lines 365-371), so the
artifact carries the default value `0`; the size of the serialized manifest
JSON blob is abstracted as `0` in its upload record. -/
def process_batch (cfg : Config) (db : DbState) (now_iso : String)
    (msgs : List PMessage) : Except PipelineErr PipelineOk :=
  match msgs with
  | [] => .error ⟨"IndexError: messages is empty", db, []⟩
  | msg0 :: _ =>
    let ts := utcFromTimestamp msg0.date
    let chat_slug := to_safe_slug msg0.chat_source
    let base_path := "teltubby/" ++ pad4 ts.year ++ "/" ++ pad2 ts.month
      ++ "/" ++ chat_slug ++ "/" ++ toString msg0.id ++ "/"
    let sorted := sortByDate msgs
    let ctx : Ctx := ⟨cfg, ts, chat_slug, base_path, msg0.id,
      msg0.media_group_id, now_iso⟩
    match processItems ctx ⟨db, [], [], none, none⟩ 1 sorted with
    | .error e => .error e
    | .ok st =>
      let res0 : BatchResult := ⟨base_path, st.outcomes, st.duplicate_of,
        st.dedup_reason, 0, none⟩
      let artifact := build_json_artifact cfg now_iso ts res0
      let json_key := base_path ++ "message.json"
      let uploads := st.uploads ++ [⟨json_key, 0, some "application/json"⟩]
      let total := if res0.duplicate_of.isSome then 0
        else ((res0.outcomes.filter (fun o => truthyStr o.s3_key)).map
          (fun o => o.size_bytes.getD 0)).sum
      .ok ⟨{ res0 with total_bytes_uploaded := total }, artifact, st.db,
        uploads⟩

end Pipeline

namespace Fixtures

/-- A structurally valid job payload, as built by `_on_message`. -/
def validPayload : JobManager.Jdict :=
  [("job_id", .str "j1"), ("user_id", .num 7), ("chat_id", .num 8),
   ("message_id", .num 9),
   ("file_info", .dict [("file_id", .str "f"), ("file_unique_id", .str "u"),
     ("file_type", .str "video")]),
   ("telegram_context", .dict []),
   ("job_metadata", .dict [("created_at", .str "t"),
     ("priority", .str "normal"), ("retry_count", .num 0),
     ("max_retries", .num 3)])]

/-- The message `publish_job` builds from `validPayload` with the default
priority. -/
def publishedMsg : JobManager.AmqpMessage :=
  ⟨validPayload, 2, 4, "application/json", "teltubby.large_file.job",
    [("schema", "1.0")]⟩

/-- A fresh 5-byte photo item whose download and upload succeed. -/
def miGood : Pipeline.MediaInfo :=
  ⟨"photo", "jpg", some "image/jpeg", "f1", "u1", some 5, some 2, some 2,
    none, none⟩

/-- Message carrying `miGood`, epoch date 0, sender `alice`, chat `c`. -/
def mGood : Pipeline.PMessage :=
  ⟨1, 0, some miGood, none, none, some "alice", "c", .ok (5, "h1"), true⟩

/-- A 3-byte photo item whose unique id `u2` is already recorded. -/
def miDup : Pipeline.MediaInfo :=
  ⟨"photo", "jpg", some "image/jpeg", "f2", "u2", some 3, none, none, none,
    none⟩

/-- Message carrying `miDup`, one second after `mGood`. -/
def mDup : Pipeline.PMessage :=
  ⟨1, 1, some miDup, none, none, some "alice", "c", .ok (3, "h2"), true⟩

/-- Same item as `mGood` but its Telegram download raises. -/
def mBad : Pipeline.PMessage :=
  ⟨1, 0, some miGood, none, none, some "alice", "c", .error (), true⟩

/-- Database that already maps `u2 → h2 → k2`, so `mDup` is a fast-path
duplicate. -/
def db1 : Dedup.DbState :=
  Dedup.record Dedup.emptyDb "h2" "k2" 3 (some "image/jpeg") (some "u2") "T0"

/-- Pipeline configuration: bucket `b`, 4 GiB cap, default bot limit. -/
def cfg0 : Pipeline.Config := ⟨"b", 4, none⟩

/-- Empty aggregator with the default 10-second window. -/
def agg0 : Album.AggState := ⟨10, []⟩

/-- First group message of group `g`, arriving at monotonic time 0. -/
def aggAdd1 : Option (List Album.AMsg) × Album.AggState :=
  Album.add_and_maybe_wait agg0 0 ⟨1, some "g"⟩

/-- Second group message of group `g`, arriving exactly at the window. -/
def aggAdd2 : Option (List Album.AMsg) × Album.AggState :=
  Album.add_and_maybe_wait aggAdd1.2 10 ⟨2, some "g"⟩

end Fixtures

end Teltubby

namespace Teltubby.Slugging

theorem char_toNat_ofNat_valid (m : Nat) (h : m < 55296) :
    (Char.ofNat m).toNat = m := by
  have hv : m.isValidChar := Or.inl h
  simp [Char.ofNat, hv, Char.ofNatAux, Char.toNat, UInt32.toNat,
    BitVec.toNat_ofNatLt]

theorem toLower_toNat (c : Char) :
    (Char.toLower c).toNat =
      if 65 ≤ c.toNat ∧ c.toNat ≤ 90 then c.toNat + 32 else c.toNat := by
  simp only [Char.toLower]
  by_cases h : c.toNat ≥ 65 ∧ c.toNat ≤ 90
  · rw [if_pos h, if_pos ⟨h.1, h.2⟩, char_toNat_ofNat_valid _ (by omega)]
  · rw [if_neg h, if_neg h]

theorem toLower_fix (c : Char) (h : ¬(65 ≤ c.toNat ∧ c.toNat ≤ 90)) :
    Char.toLower c = c := by
  simp only [Char.toLower]
  rw [if_neg h]

theorem toLower_not_upper (c : Char) :
    ¬(65 ≤ (Char.toLower c).toNat ∧ (Char.toLower c).toNat ≤ 90) := by
  rw [toLower_toNat]
  split <;> omega

theorem toLower_idem (c : Char) :
    Char.toLower (Char.toLower c) = Char.toLower c :=
  toLower_fix _ (toLower_not_upper c)

theorem isSafeChar_ascii (c : Char) (h : isSafeChar c = true) :
    c.toNat < 128 := by
  simp only [isSafeChar, Bool.or_eq_true, Bool.and_eq_true, decide_eq_true_eq,
    beq_iff_eq] at h
  omega

theorem isSafeChar_not_upper_out (c : Char) (h : isSafeChar c = true)
    (hu : ¬(65 ≤ c.toNat ∧ c.toNat ≤ 90)) : isSlugOutChar c = true := by
  simp only [isSafeChar, Bool.or_eq_true, Bool.and_eq_true, decide_eq_true_eq,
    beq_iff_eq] at h
  simp only [isSlugOutChar, Bool.or_eq_true, Bool.and_eq_true,
    decide_eq_true_eq, beq_iff_eq]
  omega

theorem translitChar_of_ascii (c : Char) (h : c.toNat < 128) :
    translitChar c = [c] := by
  unfold translitChar
  rw [if_pos h]

theorem unidecode_fix (l : List Char) (h : ∀ c ∈ l, c.toNat < 128) :
    unidecode l = l := by
  induction l with
  | nil => rfl
  | cons c t ih =>
    have hc : translitChar c = [c] := translitChar_of_ascii c (h c (by simp))
    have ht : unidecode t = t := ih (fun d hd => h d (by simp [hd]))
    simp only [unidecode] at ht ⊢
    simp [hc, ht]

theorem lowerStr_fix (l : List Char) (h : ∀ c ∈ l, Char.toLower c = c) :
    lowerStr l = l := by
  induction l with
  | nil => rfl
  | cons c t ih =>
    have hc := h c (by simp)
    have ht : lowerStr t = t := ih (fun d hd => h d (by simp [hd]))
    simp only [lowerStr] at ht ⊢
    simp [hc, ht]

theorem replaceRunsAux_mem (l : List Char) :
    ∀ (flag : Bool) (c : Char), c ∈ replaceRunsAux flag l →
      c = '-' ∨ (c ∈ l ∧ isSafeChar c = true) := by
  induction l with
  | nil => intro flag c h; simp [replaceRunsAux] at h
  | cons d t ih =>
    intro flag c h
    simp only [replaceRunsAux] at h
    by_cases hd : isSafeChar d = true
    · rw [if_pos hd] at h
      rcases List.mem_cons.mp h with h1 | h1
      · subst h1; exact Or.inr ⟨by simp, hd⟩
      · rcases ih false c h1 with h2 | h2
        · exact Or.inl h2
        · exact Or.inr ⟨by simp [h2.1], h2.2⟩
    · rw [if_neg hd] at h
      by_cases hflag : flag = true
      · rw [if_pos hflag] at h
        rcases ih true c h with h2 | h2
        · exact Or.inl h2
        · exact Or.inr ⟨by simp [h2.1], h2.2⟩
      · rw [if_neg hflag] at h
        rcases List.mem_cons.mp h with h1 | h1
        · exact Or.inl h1
        · rcases ih true c h1 with h2 | h2
          · exact Or.inl h2
          · exact Or.inr ⟨by simp [h2.1], h2.2⟩

theorem replaceRunsAux_fix (l : List Char) (h : ∀ c ∈ l, isSafeChar c = true) :
    replaceRunsAux false l = l := by
  induction l with
  | nil => rfl
  | cons c t ih =>
    have hc := h c (by simp)
    have ht := ih (fun d hd => h d (by simp [hd]))
    simp only [replaceRunsAux]
    rw [if_pos hc, ht]

theorem dash_safe : isSafeChar '-' = true := by decide

theorem dash_out : isSlugOutChar '-' = true := by decide

theorem slug_chars (s : String) :
    ∀ c ∈ (to_safe_slug s).data,
      c = '-' ∨ (c ∈ lowerStr (unidecode s.data) ∧ isSafeChar c = true) := by
  intro c hc
  exact replaceRunsAux_mem _ _ _ hc

theorem slug_chars_lower_fix (s : String) :
    ∀ c ∈ (to_safe_slug s).data, Char.toLower c = c := by
  intro c hc
  rcases slug_chars s c hc with h | ⟨hmem, _⟩
  · subst h; decide
  · simp only [lowerStr, List.mem_map] at hmem
    obtain ⟨d, _, hd⟩ := hmem
    subst hd
    exact toLower_idem d

theorem slug_chars_safe (s : String) :
    ∀ c ∈ (to_safe_slug s).data, isSafeChar c = true := by
  intro c hc
  rcases slug_chars s c hc with h | ⟨_, hs⟩
  · subst h; exact dash_safe
  · exact hs

theorem slug_chars_ascii (s : String) :
    ∀ c ∈ (to_safe_slug s).data, c.toNat < 128 := by
  intro c hc
  exact isSafeChar_ascii c (slug_chars_safe s c hc)

theorem slug_chars_out (s : String) :
    ∀ c ∈ (to_safe_slug s).data, isSlugOutChar c = true := by
  intro c hc
  rcases slug_chars s c hc with h | ⟨hmem, hs⟩
  · subst h; exact dash_out
  · simp only [lowerStr, List.mem_map] at hmem
    obtain ⟨d, _, hd⟩ := hmem
    refine isSafeChar_not_upper_out c hs ?_
    rw [← hd]
    exact toLower_not_upper d

/-- C8: for every string `s`, the slug function of slugging.py is
idempotent (`to_safe_slug (to_safe_slug s) = to_safe_slug s`) and every
character of its output lies in the spec charset `[a-z0-9._-]`. -/
theorem C8_slug_idempotent_and_charset (s : String) :
    to_safe_slug (to_safe_slug s) = to_safe_slug s ∧
    (to_safe_slug s).data.all isSlugOutChar = true := by
  constructor
  · have h1 : unidecode (to_safe_slug s).data = (to_safe_slug s).data :=
      unidecode_fix _ (slug_chars_ascii s)
    have h2 : lowerStr (to_safe_slug s).data = (to_safe_slug s).data :=
      lowerStr_fix _ (slug_chars_lower_fix s)
    have h3 : replaceRunsAux false (to_safe_slug s).data = (to_safe_slug s).data :=
      replaceRunsAux_fix _ (slug_chars_safe s)
    show String.mk (replaceRuns (lowerStr (unidecode (to_safe_slug s).data)))
      = to_safe_slug s
    rw [h1, h2]
    show String.mk (replaceRunsAux false (to_safe_slug s).data) = to_safe_slug s
    rw [h3]
  · rw [List.all_eq_true]
    exact slug_chars_out s

theorem length_append3 (a b c : String) :
    (a ++ b ++ c).length = a.length + b.length + c.length := by
  rw [String.length_append, String.length_append]

set_option maxRecDepth 4000 in
/-- C7 counterexample: with a 120-character extension the produced filename
has length 121, exceeding the 120 cap — the truncation empties the base but
the dot and extension alone overflow, so the claim fails as stated for all
inputs. -/
theorem C7_counterexample :
    120 < (build_filename ⟨2024, 1, 2, 3, 4, 5⟩ "c" "s" 1 none 1 none
      (String.mk (List.replicate 120 'a'))).length := by decide

/-- C7 (amended): whenever the extension has at most 119 characters (so the
cap is at all reachable with the extension intact), the produced filename has
length at most 120 and is a right-truncated prefix of the base followed by
the dot and the untouched extension. -/
theorem C7_amended_length_and_ext (ts : Timestamp) (chat sender : String)
    (mid : Nat) (mgid : Option String) (ord : Nat) (cap : Option String)
    (ext : String) (h : ext.length ≤ 119) :
    (build_filename ts chat sender mid mgid ord cap ext).length ≤ 120 ∧
    ∃ b : List Char,
      build_filename ts chat sender mid mgid ord cap ext
        = String.mk b ++ "." ++ ext ∧
      b <+: (build_base ts chat sender mid mgid ord cap).data := by
  simp only [build_filename, SAFE_MAX_FILENAME]
  have hdot : ("." : String).length = 1 := rfl
  by_cases hbig :
      120 < (build_base ts chat sender mid mgid ord cap ++ "." ++ ext).length
  · rw [if_pos hbig]
    have hdata : (build_base ts chat sender mid mgid ord cap).data.length
        = (build_base ts chat sender mid mgid ord cap).length := rfl
    constructor
    · simp only [length_append3, hdot, String.length_mk, List.length_take,
        hdata]
      rw [length_append3, hdot] at hbig
      omega
    · exact ⟨_, rfl, List.take_prefix _ _⟩
  · rw [if_neg hbig]
    rw [length_append3, hdot] at hbig
    constructor
    · rw [length_append3, hdot]
      omega
    · exact ⟨(build_base ts chat sender mid mgid ord cap).data, rfl,
        List.prefix_rfl⟩

/-- Witness for C7 (amended) at a concrete input. -/
theorem C7_amended_witness :
    ("jpg" : String).length ≤ 119 ∧
    ((build_filename ⟨2024, 1, 2, 3, 4, 5⟩ "chan-a" "alice" 42 none 1 none
        "jpg").length ≤ 120 ∧
      ∃ b : List Char,
        build_filename ⟨2024, 1, 2, 3, 4, 5⟩ "chan-a" "alice" 42 none 1 none
            "jpg" = String.mk b ++ "." ++ "jpg" ∧
        b <+: (build_base ⟨2024, 1, 2, 3, 4, 5⟩ "chan-a" "alice" 42 none 1
          none).data) :=
  ⟨by decide,
    C7_amended_length_and_ext ⟨2024, 1, 2, 3, 4, 5⟩ "chan-a" "alice" 42 none 1
      none "jpg" (by decide)⟩

end Teltubby.Slugging

namespace Teltubby.Dedup

theorem lookup_append_of_none {β : Type} (l : List (String × β)) (k : String)
    (v : β) (h : l.lookup k = none) : (l ++ [(k, v)]).lookup k = some v := by
  induction l with
  | nil => simp [List.lookup]
  | cons a t ih =>
    simp only [List.lookup, List.cons_append] at h ⊢
    by_cases hk : (k == a.1) = true
    · rw [hk] at h; simp at h
    · rw [Bool.not_eq_true] at hk
      rw [hk] at h ⊢
      exact ih h

theorem lookup_setKey_self {β : Type} (l : List (String × β)) (k : String)
    (v : β) (hsome : (l.lookup k).isSome) :
    (setKey l k v).lookup k = some v := by
  induction l with
  | nil => simp [List.lookup] at hsome
  | cons a t ih =>
    by_cases hk : a.1 = k
    · simp only [setKey, List.map_cons]
      rw [if_pos hk]
      simp [List.lookup]
    · simp only [setKey, List.map_cons]
      rw [if_neg hk]
      have hne : (k == a.1) = false :=
        beq_eq_false_iff_ne.mpr (fun he => hk he.symm)
      simp only [List.lookup, hne] at hsome ⊢
      exact ih hsome

/-- C4: once `record(hash, key, size, media_type, uid)` has run and the
resulting store maps the source unique id to the hash and the hash to a file
record carrying `key`, `check_by_unique_id uid` reports a duplicate whose
existing key is `key`. -/
theorem C4_dedup_transitivity (db : DbState) (sha key : String) (sz : Nat)
    (mime : Option String) (uid : String) (now : String) (row : FileRow)
    (h1 : (record db sha key sz mime (some uid) now).tg_map.lookup uid
      = some sha)
    (h2 : (record db sha key sz mime (some uid) now).files.lookup sha
      = some row)
    (h3 : row.s3_key = key) :
    check_by_unique_id (record db sha key sz mime (some uid) now) uid
      = ⟨true, some key, some "file_unique_id"⟩ := by
  simp only [check_by_unique_id, h1, h2, h3]

/-- Witness for C4 on a fresh store: recording `u → h → k` makes the probe
return `k`. -/
theorem C4_dedup_transitivity_witness :
    ((record emptyDb "h" "k" 5 none (some "u") "T").tg_map.lookup "u"
      = some "h") ∧
    ((record emptyDb "h" "k" 5 none (some "u") "T").files.lookup "h"
      = some ⟨"k", 5, none, "T"⟩) ∧
    (FileRow.s3_key ⟨"k", 5, none, "T"⟩ = "k") ∧
    check_by_unique_id (record emptyDb "h" "k" 5 none (some "u") "T") "u"
      = ⟨true, some "k", some "file_unique_id"⟩ :=
  ⟨by decide, by decide, rfl,
    C4_dedup_transitivity emptyDb "h" "k" 5 none "u" "T" ⟨"k", 5, none, "T"⟩
      (by decide) (by decide) rfl⟩

/-- C10: `purge_all` empties exactly `files`, `jobs` and `auth_secrets` and
reports counts for exactly those three tables; `tg_map`, `messages` and
`job_attempts` are untouched, so a recorded source mapping survives while the
file record its hash references is gone. -/
theorem C10_purge_all_frame (db : DbState) (uid sha : String)
    (h : db.tg_map.lookup uid = some sha) :
    (purge_all db).1.tg_map.lookup uid = some sha ∧
    (purge_all db).1.files.lookup sha = none ∧
    (purge_all db).1.tg_map = db.tg_map ∧
    (purge_all db).1.messages = db.messages ∧
    (purge_all db).1.job_attempts = db.job_attempts ∧
    (purge_all db).1.files = [] ∧
    (purge_all db).1.jobs = [] ∧
    (purge_all db).1.auth_secrets = [] ∧
    (purge_all db).2 = [("files", db.files.length), ("jobs", db.jobs.length),
      ("auth_secrets", db.auth_secrets.length)] :=
  ⟨h, rfl, rfl, rfl, rfl, rfl, rfl, rfl, rfl⟩

/-- Witness for C10 on a store holding one file record, its source mapping,
and one job. -/
theorem C10_purge_all_frame_witness :
    ((⟨[("h", ⟨"k", 5, none, "T"⟩)], [("u", "h")], [], [("j", ⟨7, 8, 9,
        "PENDING", 4, "T", "T", none, none⟩)], [], []⟩ : DbState).tg_map.lookup
      "u" = some "h") ∧
    ((purge_all ⟨[("h", ⟨"k", 5, none, "T"⟩)], [("u", "h")], [], [("j", ⟨7, 8,
        9, "PENDING", 4, "T", "T", none, none⟩)], [], []⟩).1.tg_map.lookup "u"
      = some "h" ∧
     (purge_all ⟨[("h", ⟨"k", 5, none, "T"⟩)], [("u", "h")], [], [("j", ⟨7, 8,
        9, "PENDING", 4, "T", "T", none, none⟩)], [], []⟩).1.files.lookup "h"
      = none) :=
  ⟨by decide,
    ((C10_purge_all_frame ⟨[("h", ⟨"k", 5, none, "T"⟩)], [("u", "h")], [],
      [("j", ⟨7, 8, 9, "PENDING", 4, "T", "T", none, none⟩)], [], []⟩ "u" "h"
      (by decide)).1),
    ((C10_purge_all_frame ⟨[("h", ⟨"k", 5, none, "T"⟩)], [("u", "h")], [],
      [("j", ⟨7, 8, 9, "PENDING", 4, "T", "T", none, none⟩)], [], []⟩ "u" "h"
      (by decide)).2.1)⟩

end Teltubby.Dedup

namespace Teltubby.Quota

/-- C5 counterexample: with a configured quota of 10 bytes, a previously
computed total of 100, a stale cache, and a failing enumeration that yielded
nothing, the refresh stores and returns 0 — not the prior value 100 — and
`used_ratio` reports `some 0`, not a ratio computed from the prior total and
not unknown. -/
theorem C5_counterexample :
    (refresh_used_bytes ⟨10, 100, 0⟩ 1000 ⟨[], false⟩ 300).1 = 0 ∧
    (refresh_used_bytes ⟨10, 100, 0⟩ 1000 ⟨[], false⟩ 300).2.last_used_bytes
      = 0 ∧
    (refresh_used_bytes ⟨10, 100, 0⟩ 1000 ⟨[], false⟩ 300).1 ≠ 100 ∧
    ( used_ratio ⟨10, 100, 0⟩ 1000 ⟨[], false⟩).1 = some 0 := by
  refine ⟨rfl, rfl, by decide, ?_⟩
  show some (min 1 ((0 : ℚ) / (10 : ℚ))) = some 0
  norm_num

/-- C5 (amended): when the cache is stale (or empty), the refresh stores and
returns the partial sum the enumeration yielded — on failure typically 0 —
overwriting the prior value, and the used ratio is computed from that new
total; `used_ratio` reports unknown exactly when no quota is configured. -/
theorem C5_amended_refresh_overwrites (s : QuotaState) (now : Int)
    (enumr : ListOutcome) (t : QuotaState) (nw : Int) (e : ListOutcome)
    (hq : s.quota ≠ 0)
    (hstale : ¬(now - s.last_refresh < 300 ∧ 0 < s.last_used_bytes)) :
    ( used_ratio s now enumr).1
      = some (min 1 ((enumr.sizes.sum : ℚ) / (s.quota : ℚ))) ∧
    ( used_ratio s now enumr).2.last_used_bytes = enumr.sizes.sum ∧
    (( used_ratio t nw e).1 = none ↔ t.quota = 0) := by
  refine ⟨?_, ?_, ?_⟩
  · simp only [ used_ratio, refresh_used_bytes, if_neg hq, if_neg hstale]
  · simp only [ used_ratio, refresh_used_bytes, if_neg hq, if_neg hstale]
  · by_cases ht : t.quota = 0
    · simp [ used_ratio, ht]
    · simp [ used_ratio, ht]

/-- Witness for C5 (amended) at a concrete stale state with a failed
enumeration that yielded two sizes before raising, and an unconfigured state
for the unknown case. -/
theorem C5_amended_refresh_overwrites_witness :
    ((⟨10, 100, 0⟩ : QuotaState).quota ≠ 0) ∧
    ¬((1000 : Int) - (⟨10, 100, 0⟩ : QuotaState).last_refresh < 300 ∧
      0 < (⟨10, 100, 0⟩ : QuotaState).last_used_bytes) ∧
    (( used_ratio ⟨10, 100, 0⟩ 1000 ⟨[2, 3], false⟩).1
      = some (min 1 (((([2, 3] : List Nat).sum : Nat) : ℚ) / ((10 : Nat) : ℚ))) ∧
     ( used_ratio ⟨10, 100, 0⟩ 1000 ⟨[2, 3], false⟩).2.last_used_bytes
      = ([2, 3] : List Nat).sum ∧
     (( used_ratio ⟨0, 7, 0⟩ 1000 ⟨[], true⟩).1 = none ↔
       (⟨0, 7, 0⟩ : QuotaState).quota = 0)) :=
  ⟨by decide, by decide,
    C5_amended_refresh_overwrites ⟨10, 100, 0⟩ 1000 ⟨[2, 3], false⟩
      ⟨0, 7, 0⟩ 1000 ⟨[], true⟩ (by decide) (by decide)⟩

end Teltubby.Quota

namespace Teltubby.JobManager

/-- C9 counterexample: the published message's type tag is
`teltubby.large_file.job`, not the `telarch.largefile.job` the claim names. -/
theorem C9_counterexample :
    publish_job_default Fixtures.validPayload = Except.ok Fixtures.publishedMsg
      ∧ Fixtures.publishedMsg.type = "teltubby.large_file.job"
      ∧ ("teltubby.large_file.job" : String) ≠ "telarch.largefile.job" :=
  ⟨rfl, rfl, by decide⟩

/-- C9 (amended): every job message the adapter publishes with the default
priority carries persistent delivery (mode 2), content type
`application/json`, type tag `teltubby.large_file.job`, the `schema=1.0`
header, and priority 4. -/
theorem C9_amended_publish_properties (p : Jdict) (m : AmqpMessage)
    (h : publish_job_default p = Except.ok m) :
    m.delivery_mode = 2 ∧ m.content_type = "application/json" ∧
    m.type = "teltubby.large_file.job" ∧ m.headers = [("schema", "1.0")] ∧
    m.priority = 4 := by
  unfold publish_job_default publish_job at h
  cases hv : validate_job_payload p with
  | error e =>
    rw [hv] at h
    simp [Bind.bind, Except.bind] at h
  | ok u =>
    cases u
    rw [hv] at h
    simp only [Bind.bind, Except.bind, Except.ok.injEq] at h
    subst h
    exact ⟨rfl, rfl, rfl, rfl, rfl⟩

/-- Witness for C9 (amended) at the concrete valid payload. -/
theorem C9_amended_publish_properties_witness :
    (publish_job_default Fixtures.validPayload
      = Except.ok Fixtures.publishedMsg) ∧
    (Fixtures.publishedMsg.delivery_mode = 2 ∧
     Fixtures.publishedMsg.content_type = "application/json" ∧
     Fixtures.publishedMsg.type = "teltubby.large_file.job" ∧
     Fixtures.publishedMsg.headers = [("schema", "1.0")] ∧
     Fixtures.publishedMsg.priority = 4) :=
  ⟨rfl, C9_amended_publish_properties Fixtures.validPayload
    Fixtures.publishedMsg rfl⟩

end Teltubby.JobManager

namespace Teltubby.Service

/-- C6: with the oversize probe negative, an item whose declared size equals
the small-path limit is routed to the small path with the job store
untouched, while an item one byte over the limit is routed to the large path
and a PENDING row with priority 4 is persisted under its job id. -/
theorem C6_boundary_routing (db : Dedup.DbState) (bot_limit : Nat)
    (jid : String) (u c m : Int) (ca pj : String) :
    (route_item db false bot_limit bot_limit jid u c m ca pj).route
      = Route.small ∧
    (route_item db false bot_limit bot_limit jid u c m ca pj).db = db ∧
    (route_item db false (bot_limit + 1) bot_limit jid u c m ca pj).route
      = Route.large ∧
    ((route_item db false (bot_limit + 1) bot_limit jid u c m ca
        pj).db.jobs.lookup jid).map (fun r => (r.state, r.priority))
      = some ("PENDING", 4) := by
  have hsmall : (false || (bot_limit != 0 &&
      decide (bot_limit < bot_limit))) = false := by
    simp
  have hlarge : (false || ((bot_limit + 1) != 0 &&
      decide (bot_limit < bot_limit + 1))) = true := by
    simp
  refine ⟨?_, ?_, ?_, ?_⟩
  · simp only [route_item, hsmall, Bool.false_eq_true, if_false]
  · simp only [route_item, hsmall, Bool.false_eq_true, if_false]
  · simp only [route_item, hlarge, if_true]
  · simp only [route_item, hlarge, if_true]
    unfold Dedup.upsert_job
    cases hl : db.jobs.lookup jid with
    | none =>
      simp only []
      rw [Dedup.lookup_append_of_none db.jobs jid _ hl]
      rfl
    | some old =>
      simp only []
      rw [Dedup.lookup_setKey_self db.jobs jid _ (by simp [hl])]
      rfl

end Teltubby.Service

namespace Teltubby.Album

set_option maxRecDepth 4000 in
/-- C3 evaluation at the failing input: message 1 of group `g` arrives at
time 0 (pending); message 2 of the same group arrives at time 10, exactly the
window.  The call returns only `[message 1]`, deletes the bucket, and message
2 is in no bucket and no batch — the late arrival is dropped, not deferred to
a new batch. -/
theorem C3_late_arrival_dropped :
    Fixtures.aggAdd1.1 = none ∧
    Fixtures.aggAdd2.1 = some [⟨1, some "g"⟩] ∧
    Fixtures.aggAdd2.2.buckets = [] ∧
    (pop_ready_albums Fixtures.aggAdd2.2 20).1 = [] := by decide

end Teltubby.Album

namespace Teltubby.Pipeline

set_option maxRecDepth 8000 in
/-- C2 evaluation at the failing input: a two-item batch whose first item's
Telegram download raises.  `process_batch` propagates the exception: the
whole batch aborts with no skipped outcome recorded, the second item is never
processed, and no manifest object is uploaded (the upload list at the raise
is empty). -/
theorem C2_download_failure_aborts_batch :
    process_batch Fixtures.cfg0 Dedup.emptyDb "T1"
        [Fixtures.mBad, Fixtures.mDup]
      = Except.error ⟨"download raised", Dedup.emptyDb, []⟩ := by rfl

set_option maxRecDepth 8000 in
/-- C1 evaluation at the failing input: a batch of a fresh 5-byte upload
followed by a fast-path duplicate.  The written manifest lists both the new
key and the duplicate's existing key `k2` (not only the non-duplicate
upload), counts two files, and carries `total_bytes_uploaded = 0` — the
field is populated on the result only after the manifest is serialized —
while the non-duplicate uploads of the batch total 5 bytes. -/
theorem C1_manifest_divergence :
    ((process_batch Fixtures.cfg0 Fixtures.db1 "T1"
        [Fixtures.mGood, Fixtures.mDup]).toOption.map
      (fun r => (r.artifact.keys, r.artifact.files_count,
        r.artifact.total_bytes_uploaded,
        ((r.result.outcomes.filter
            (fun o => !o.is_duplicate && o.s3_key.isSome)).map
          (fun o => o.size_bytes.getD 0)).sum)))
      = some (["teltubby/1970/01/c/1/19700101-000000_c_alice_m1_001.jpg",
          "k2"], 2, 0, 5) ∧
    (2 : Nat) ≠ 1 ∧ (0 : Nat) ≠ 5 :=
  ⟨rfl, by decide, by decide⟩

end Teltubby.Pipeline
